import Mathlib

/-!
Shallow embedding of the faceted filter-and-collapse engine of
`ui/src/components/ConceptTable.tsx` (OHDSI/Hecate), together with proofs
about its projection, predicate, rendering and filter-option components.

JavaScript values of type `string | undefined` are modelled as `Option String`
(`none` = `undefined`); `arr[0]` on a `string[]` is `List.head?`; JS numbers
are modelled as `Int` (ids) and `Rat` (scores) — no float arithmetic occurs on
any modelled code path.
-/

/-- A value of the JavaScript type `string | undefined`. -/
abbrev JStr := Option String

/-- Models `arr[0]` on a JS `string[]`: the first element, or `undefined`. -/
def jsHead (l : List String) : JStr := l.head?

/-- JS truthiness of a `string | undefined` value (`filter(Boolean)`):
`undefined` and `""` are falsy. -/
def truthyStr : JStr → Bool
  | some s => s ≠ ""
  | none => false

/-- `ConceptRow` from `ui/src/@types/data-source` as used by `ConceptTable.tsx`:
a node of the two-level forest.  Each filterable field is an ordered sequence
of strings; `children` is present exactly on group rows. -/
inductive ConceptRow where
  | mk (concept_id : Option Int) (concept_name : String) (concept_code : String)
      (concept_class_id : List String) (domain_id : List String)
      (invalid_reason : List String) (standard_concept : List String)
      (vocabulary_id : List String) (score : Option Rat)
      (children : Option (List ConceptRow))

def ConceptRow.concept_id : ConceptRow → Option Int
  | .mk v _ _ _ _ _ _ _ _ _ => v

def ConceptRow.concept_name : ConceptRow → String
  | .mk _ v _ _ _ _ _ _ _ _ => v

def ConceptRow.concept_code : ConceptRow → String
  | .mk _ _ v _ _ _ _ _ _ _ => v

def ConceptRow.concept_class_id : ConceptRow → List String
  | .mk _ _ _ v _ _ _ _ _ _ => v

def ConceptRow.domain_id : ConceptRow → List String
  | .mk _ _ _ _ v _ _ _ _ _ => v

def ConceptRow.invalid_reason : ConceptRow → List String
  | .mk _ _ _ _ _ v _ _ _ _ => v

def ConceptRow.standard_concept : ConceptRow → List String
  | .mk _ _ _ _ _ _ v _ _ _ => v

def ConceptRow.vocabulary_id : ConceptRow → List String
  | .mk _ _ _ _ _ _ _ v _ _ => v

def ConceptRow.score : ConceptRow → Option Rat
  | .mk _ _ _ _ _ _ _ _ v _ => v

def ConceptRow.children : ConceptRow → Option (List ConceptRow)
  | .mk _ _ _ _ _ _ _ _ _ v => v

/-- Models the object spread `{ ...row, children: cs }`. -/
def ConceptRow.setChildren : ConceptRow → Option (List ConceptRow) → ConceptRow
  | .mk a b c d e f g h i _, cs => .mk a b c d e f g h i cs

/-- `FilterState` from `ConceptTable.tsx`: per filterable field, an optional
list of selected values (`undefined` = field untouched). -/
structure FilterState where
  concept_class_id : Option (List String)
  domain_id : Option (List String)
  invalid_reason : Option (List String)
  standard_concept : Option (List String)
  vocabulary_id : Option (List String)

/-- The five filterable fields (`type FilterField = keyof FilterState`). -/
inductive FilterField where
  | concept_class_id | domain_id | invalid_reason | standard_concept | vocabulary_id
deriving DecidableEq

/-- Uniform read of a filter selection from a `FilterState`. -/
def fsGet (f : FilterState) : FilterField → Option (List String)
  | .concept_class_id => f.concept_class_id
  | .domain_id => f.domain_id
  | .invalid_reason => f.invalid_reason
  | .standard_concept => f.standard_concept
  | .vocabulary_id => f.vocabulary_id

/-- Functional update of one field of a `FilterState`. -/
def fsSet (f : FilterState) : FilterField → Option (List String) → FilterState
  | .concept_class_id, v => { f with concept_class_id := v }
  | .domain_id, v => { f with domain_id := v }
  | .invalid_reason, v => { f with invalid_reason := v }
  | .standard_concept, v => { f with standard_concept := v }
  | .vocabulary_id, v => { f with vocabulary_id := v }

/-- Uniform read of a filterable field's value sequence from a row. -/
def getField (r : ConceptRow) : FilterField → List String
  | .concept_class_id => r.concept_class_id
  | .domain_id => r.domain_id
  | .invalid_reason => r.invalid_reason
  | .standard_concept => r.standard_concept
  | .vocabulary_id => r.vocabulary_id

/-- `currentFilters` as initialised by `useConceptFilters` (`{}`): every
selection absent. -/
def defaultFilterState : FilterState := ⟨none, none, none, none, none⟩

/-- JS truthiness of `filters.field?.length`: the selection is present and
non-empty. -/
def activeSel : Option (List String) → Bool
  | none => false
  | some l => decide (l.length ≠ 0)

/-- `sel.includes(v)` for `sel : string[]` and `v : string | undefined`:
`undefined` is never equal to a string element. -/
def jsIncludes (sel : List String) : JStr → Bool
  | some s => sel.contains s
  | none => false

/-- One guard of the child predicate:
`filters.field?.length && !filters.field.includes(child.field[0])`. -/
def fieldBlocks (sel : Option (List String)) (v : JStr) : Bool :=
  match sel with
  | none => false
  | some l => decide (l.length ≠ 0) && !(jsIncludes l v)

/-- The per-child predicate inside `applyFiltersToChildren`: five sequential
early-return guards, one per filterable field. -/
def childPasses (filters : FilterState) (child : ConceptRow) : Bool :=
  if fieldBlocks filters.concept_class_id (jsHead child.concept_class_id) then false
  else if fieldBlocks filters.domain_id (jsHead child.domain_id) then false
  else if fieldBlocks filters.invalid_reason (jsHead child.invalid_reason) then false
  else if fieldBlocks filters.standard_concept (jsHead child.standard_concept) then false
  else if fieldBlocks filters.vocabulary_id (jsHead child.vocabulary_id) then false
  else true

/-- `applyFiltersToChildren(children, filters)` from `ConceptTable.tsx`. -/
def applyFiltersToChildren (children : List ConceptRow) (filters : FilterState) :
    List ConceptRow :=
  children.filter (fun child => childPasses filters child)

/-- The per-row body of `filterData`: groups with more than one child are
filtered and possibly collapsed to their single accepted child; all other
rows are passed through (spread copies are the identity in a pure model). -/
def projectRow (filters : FilterState) (row : ConceptRow) : ConceptRow :=
  match row.children with
  | some cs =>
    if 1 < cs.length then
      let accepted := applyFiltersToChildren cs filters
      if accepted.length = 1 then accepted.headD row
      else row.setChildren (some accepted)
    else row
  | none => row

/-- `filterData`: the projection of the original dataset under a filter
state (`originalData.map(...)`, the list bound to `selected`). -/
def project (rows : List ConceptRow) (filters : FilterState) : List ConceptRow :=
  rows.map (projectRow filters)

/-- Models `[...new Set(arr)]`: the distinct elements of `arr` in order of
first occurrence (JS `Set` iteration order is insertion order). -/
def dedupFirst {α : Type} [DecidableEq α] : List α → List α
  | [] => []
  | a :: rest => a :: dedupFirst (rest.filter (fun b => b ≠ a))
termination_by l => l.length
decreasing_by
  simp only [List.length_cons]
  exact Nat.lt_succ_of_le (List.length_filter_le _ _)

/-- Index of the first occurrence of `a` in a list (list length if absent). -/
def firstIdx {α : Type} [DecidableEq α] (a : α) : List α → Nat
  | [] => 0
  | x :: rest => if x = a then 0 else firstIdx a rest + 1

/-- The value list built inside `renderTagsForField`:
`filtered.map((r) => (r[field] ? r[field][0] : ""))`.  The guard tests the
field's array, which is always present (and arrays, even empty ones, are
truthy in JS), so each row contributes its first value or `undefined`. -/
def childFirstVals (l : List ConceptRow) (fd : FilterField) : List JStr :=
  l.map (fun r => jsHead (getField r fd))

/-- Models `.filter(Boolean)` on a `(string | undefined)[]`: keeps exactly the
truthy values, which are then strings. -/
def truthyFilter (l : List JStr) : List String :=
  (l.filter truthyStr).map (fun v => v.getD "")

/-- `renderTagsForField(filtered, field)`: the deduplicated, truthy tag values
shown for a field over a (filtered) child list. -/
def renderTagsForField (filtered : List ConceptRow) (fd : FilterField) : List String :=
  truthyFilter (dedupFirst (childFirstVals filtered fd))

/-- The three shapes a cell value produced by `renderCellValue` can take:
the raw field array of a leaf, the scalar first value of a collapsed single
child, or a tag collection. -/
inductive CellValue where
  | rawField (vs : List String)
  | scalar (v : JStr)
  | tags (ts : List String)

/-- `renderCellValue(row, field)`.  `applyFilterForConceptsWithChildren`
falls back to the unfiltered children only when `filteredInfo` is falsy,
which never happens (it is always an object), so the group branch always
refilters `row.children` with the current filters. -/
def renderCellValue (filters : FilterState) (row : ConceptRow) (fd : FilterField) :
    CellValue :=
  match row.children with
  | some cs =>
    let filtered := applyFiltersToChildren cs filters
    if filtered.length = 1 then .scalar (jsHead (getField (filtered.headD row) fd))
    else .tags (renderTagsForField filtered fd)
  | none => .rawField (getField row fd)

/-- The text content a `CellValue` renders to (a JSX array renders its
items in order; `undefined` renders as nothing). -/
def displayedStrings : CellValue → List String
  | .rawField vs => vs
  | .scalar (some s) => [s]
  | .scalar none => []
  | .tags ts => ts

/-- JS truthiness of `record.concept_id` (a number or `undefined`):
`0` and `undefined` are falsy. -/
def jsTruthyId : Option Int → Bool
  | some i => decide (i ≠ 0)
  | none => false

/-- JS string rendering of a number-or-`undefined` value. -/
def jsIntStr : Option Int → String
  | some i => toString i
  | none => "undefined"

/-- The id column's render body:
`record.concept_id ? value : record.children?.length + " concepts"`. -/
def renderIdCell (r : ConceptRow) : String :=
  if jsTruthyId r.concept_id then jsIntStr r.concept_id
  else
    (match r.children with
      | some cs => toString cs.length
      | none => "undefined") ++ " concepts"

/-- `FilterOption`: one selectable entry of a filter menu. -/
structure FilterOption where
  text : String
  value : String

/-- JS property-key coercion of a `string | undefined` value
(`acc[undefined]` writes the key `"undefined"`). -/
def keyOf : JStr → String
  | some s => s
  | none => "undefined"

/-- Models `concepts.sort((a, b) => a.localeCompare(b))`: a stable sort.
JS moves `undefined` elements to the end without consulting the comparator;
`localeCompare` is modelled by the string order `≤`. -/
def sortJS (l : List JStr) : List JStr :=
  ((l.filterMap id).mergeSort (fun a b => a ≤ b)).map some ++
    List.replicate (l.count none) none

/-- The reduce body of `createCountForFilter`:
`acc[concept] = (acc[concept] || 0) + 1`, with JS object key order (existing
keys keep their position, new keys append). -/
def bump (acc : List (String × Nat)) (k : String) : List (String × Nat) :=
  if acc.any (fun e => e.1 = k) then
    acc.map (fun e => if e.1 = k then (e.1, e.2 + 1) else e)
  else acc ++ [(k, 1)]

/-- The reduce of `createCountForFilter` over the (sorted) value list. -/
def countsOf (concepts : List JStr) : List (String × Nat) :=
  (concepts.map keyOf).foldl bump []

/-- `createCountForFilter(concepts)`: one `⟨"value (count)", value⟩` entry per
distinct key, in object key order. -/
def createCountForFilter (concepts : List JStr) : List FilterOption :=
  (countsOf concepts).map (fun e => ⟨e.1 ++ " (" ++ toString e.2 ++ ")", e.1⟩)

/-- The value list collected by `getFilterSelector`: every leaf row's first
value and every group row's children's first values, in visiting order. -/
def visitedFirsts (fd : FilterField) (rows : List ConceptRow) : List JStr :=
  rows.flatMap (fun row =>
    match row.children with
    | some cs => cs.map (fun child => jsHead (getField child fd))
    | none => [jsHead (getField row fd)])

/-- `getFilterSelector(field, rows)`: collect, sort, then count. -/
def getFilterSelector (fd : FilterField) (rows : List ConceptRow) : List FilterOption :=
  createCountForFilter (sortJS (visitedFirsts fd rows))

/-- The filter-option index as the amended specification words it: sort the
visited first values, deduplicate keeping first occurrences, and emit one
entry per distinct value carrying its occurrence count (empty values form
their own entry). -/
def specFilterIndex (fd : FilterField) (rows : List ConceptRow) : List FilterOption :=
  (dedupFirst (((visitedFirsts fd rows).filterMap id).mergeSort (fun a b => a ≤ b))).map
    (fun k =>
      ⟨k ++ " (" ++ toString (((visitedFirsts fd rows).filterMap id).count k) ++ ")", k⟩)

lemma fieldBlocks_of_inactive {sel : Option (List String)} (h : activeSel sel = false)
    (v : JStr) : fieldBlocks sel v = false := by
  cases sel with
  | none => rfl
  | some l =>
    simp only [activeSel, decide_eq_false_iff_not, Decidable.not_not] at h
    simp [fieldBlocks, h]

lemma childPasses_eq_and (f : FilterState) (c : ConceptRow) :
    childPasses f c =
      (!fieldBlocks f.concept_class_id (jsHead c.concept_class_id) &&
       !fieldBlocks f.domain_id (jsHead c.domain_id) &&
       !fieldBlocks f.invalid_reason (jsHead c.invalid_reason) &&
       !fieldBlocks f.standard_concept (jsHead c.standard_concept) &&
       !fieldBlocks f.vocabulary_id (jsHead c.vocabulary_id)) := by
  simp only [childPasses]
  cases fieldBlocks f.concept_class_id (jsHead c.concept_class_id) <;>
    cases fieldBlocks f.domain_id (jsHead c.domain_id) <;>
    cases fieldBlocks f.invalid_reason (jsHead c.invalid_reason) <;>
    cases fieldBlocks f.standard_concept (jsHead c.standard_concept) <;>
    cases fieldBlocks f.vocabulary_id (jsHead c.vocabulary_id) <;>
    simp

lemma childPasses_iff_fields (f : FilterState) (c : ConceptRow) :
    childPasses f c = true ↔
      ∀ fd : FilterField, fieldBlocks (fsGet f fd) (jsHead (getField c fd)) = false := by
  rw [childPasses_eq_and]
  constructor
  · intro h fd
    simp only [Bool.and_eq_true, Bool.not_eq_true'] at h
    cases fd <;> simp [fsGet, getField, h.1, h.2]
  · intro h
    have h1 := h .concept_class_id
    have h2 := h .domain_id
    have h3 := h .invalid_reason
    have h4 := h .standard_concept
    have h5 := h .vocabulary_id
    simp only [fsGet, getField] at h1 h2 h3 h4 h5
    simp [h1, h2, h3, h4, h5]

lemma childPasses_of_all_inactive {f : FilterState}
    (h : ∀ fd : FilterField, activeSel (fsGet f fd) = false) (c : ConceptRow) :
    childPasses f c = true := by
  rw [childPasses_iff_fields]
  intro fd
  exact fieldBlocks_of_inactive (h fd) _

lemma setChildren_children_self (r : ConceptRow) : r.setChildren r.children = r := by
  cases r
  rfl

lemma applyFiltersToChildren_of_all_inactive {f : FilterState}
    (h : ∀ fd : FilterField, activeSel (fsGet f fd) = false) (cs : List ConceptRow) :
    applyFiltersToChildren cs f = cs := by
  unfold applyFiltersToChildren
  rw [List.filter_eq_self]
  intro c _
  exact childPasses_of_all_inactive h c

lemma projectRow_of_all_inactive {f : FilterState}
    (h : ∀ fd : FilterField, activeSel (fsGet f fd) = false) (row : ConceptRow) :
    projectRow f row = row := by
  unfold projectRow
  cases hc : row.children with
  | none => rfl
  | some cs =>
    dsimp only
    by_cases hlen : 1 < cs.length
    · rw [if_pos hlen, applyFiltersToChildren_of_all_inactive h]
      have hne : ¬ cs.length = 1 := by omega
      rw [if_neg hne, ← hc, setChildren_children_self]
    · rw [if_neg hlen]

/-- Claim C2 — Round-trip: projecting any original dataset under a filter
state whose five selection sets are all empty or absent (in particular the
default filter state) returns the dataset unchanged: every leaf is passed
through, no group collapses or shrinks, and every group keeps its full child
list in its original order. -/
theorem project_default_roundtrip (D : List ConceptRow) (f : FilterState)
    (h : ∀ fd : FilterField, activeSel (fsGet f fd) = false) :
    project D f = D := by
  unfold project
  exact List.map_id'' (projectRow_of_all_inactive h) D

/-- Concrete instantiation of the round-trip theorem at `defaultFilterState`
and a two-row dataset (one leaf, one two-child group). -/
theorem project_default_roundtrip_witness :
    project
      [ConceptRow.mk (some 1) "Aspirin" "A1" ["Ingredient"] ["Drug"] ["Valid"]
        ["Standard"] ["RxNorm"] (some 1) none,
       ConceptRow.mk none "Diabetes" "" ["Disorder", "Disorder"] ["Condition", "Condition"]
        ["Valid", "Valid"] ["Standard", "Non-standard"] ["SNOMED", "ICD10CM"] none
        (some [ConceptRow.mk (some 2) "Diabetes" "D1" ["Disorder"] ["Condition"] ["Valid"]
                 ["Standard"] ["SNOMED"] (some 1) none,
               ConceptRow.mk (some 3) "Diabetes" "D2" ["Disorder"] ["Condition"] ["Valid"]
                 ["Non-standard"] ["ICD10CM"] (some 1) none])]
      defaultFilterState =
      [ConceptRow.mk (some 1) "Aspirin" "A1" ["Ingredient"] ["Drug"] ["Valid"]
        ["Standard"] ["RxNorm"] (some 1) none,
       ConceptRow.mk none "Diabetes" "" ["Disorder", "Disorder"] ["Condition", "Condition"]
        ["Valid", "Valid"] ["Standard", "Non-standard"] ["SNOMED", "ICD10CM"] none
        (some [ConceptRow.mk (some 2) "Diabetes" "D1" ["Disorder"] ["Condition"] ["Valid"]
                 ["Standard"] ["SNOMED"] (some 1) none,
               ConceptRow.mk (some 3) "Diabetes" "D2" ["Disorder"] ["Condition"] ["Valid"]
                 ["Non-standard"] ["ICD10CM"] (some 1) none])] :=
  project_default_roundtrip _ defaultFilterState (fun fd => by cases fd <;> rfl)

lemma jsIncludes_eq_true_iff (l : List String) (v : JStr) :
    jsIncludes l v = true ↔ ∃ s, v = some s ∧ s ∈ l := by
  cases v with
  | none => simp [jsIncludes]
  | some s => simp [jsIncludes, List.contains, List.elem_iff]

lemma fieldBlocks_eq_false_iff (sel : Option (List String)) (v : JStr) :
    fieldBlocks sel v = false ↔
      ∀ l, sel = some l → l ≠ [] → jsIncludes l v = true := by
  cases sel with
  | none => simp [fieldBlocks]
  | some l =>
    simp only [fieldBlocks, Bool.and_eq_false_iff, Option.some.injEq]
    constructor
    · intro h l' hl' hne
      subst hl'
      rcases h with h | h
      · simp only [decide_eq_false_iff_not, Decidable.not_not, List.length_eq_zero] at h
        exact absurd h hne
      · simpa using h
    · intro h
      by_cases hne : l = []
      · left
        simp [hne]
      · right
        simp [h l rfl hne]

/-- The predicate evaluator as the specification words it: for each filterable
field whose selection set is present and non-empty, the child's first value for
that field must be a member of the selection set (OR within a field, AND across
fields); a field with an empty or absent selection imposes no constraint. -/
def matchesSpec (child : ConceptRow) (f : FilterState) : Prop :=
  ∀ fd : FilterField, ∀ sel, fsGet f fd = some sel → sel ≠ [] →
    ∃ v, jsHead (getField child fd) = some v ∧ v ∈ sel

/-- Claim C3 — Predicate semantics: the per-child predicate of
`applyFiltersToChildren` accepts a child exactly when, for every filterable
field with a non-empty selection set, the child's single (first) value for
that field is one of the selected values; absent or empty selections impose
no constraint. -/
theorem childPasses_iff_matchesSpec (child : ConceptRow) (f : FilterState) :
    childPasses f child = true ↔ matchesSpec child f := by
  rw [childPasses_iff_fields]
  unfold matchesSpec
  constructor
  · intro h fd sel hsel hne
    exact (jsIncludes_eq_true_iff _ _).1
      ((fieldBlocks_eq_false_iff _ _).1 (h fd) sel hsel hne)
  · intro h fd
    rw [fieldBlocks_eq_false_iff]
    intro sel hsel hne
    exact (jsIncludes_eq_true_iff _ _).2 (h fd sel hsel hne)

/-- Claim C1 — Collapse correctness: if a top-level group row has more than
one child and exactly one child satisfies the filter predicate, the projected
output holds, in the same slot, that single child itself (hence a row carrying
the child's `concept_id`, `score` and single-valued field sequences). -/
theorem collapse_correctness (rows : List ConceptRow) (f : FilterState) (i : Nat)
    (row : ConceptRow) (cs : List ConceptRow) (c : ConceptRow)
    (hrow : rows[i]? = some row) (hch : row.children = some cs)
    (hlen : 1 < cs.length) (hone : applyFiltersToChildren cs f = [c]) :
    (project rows f)[i]? = some c := by
  unfold project
  rw [List.getElem?_map, hrow, Option.map_some']
  unfold projectRow
  rw [hch]
  dsimp only
  rw [if_pos hlen, hone]
  rfl

/-- Concrete instantiation of collapse correctness: a two-child "Diabetes"
group under the filter `vocabulary_id = {SNOMED}` collapses to its SNOMED
child. -/
theorem collapse_correctness_witness :
    (project
      [ConceptRow.mk none "Diabetes" "" ["Disorder", "Disorder"] ["Condition", "Condition"]
        ["Valid", "Valid"] ["Standard", "Non-standard"] ["SNOMED", "ICD10CM"] none
        (some [ConceptRow.mk (some 1) "Diabetes" "D1" ["Disorder"] ["Condition"] ["Valid"]
                 ["Standard"] ["SNOMED"] (some 1) none,
               ConceptRow.mk (some 2) "Diabetes" "D2" ["Disorder"] ["Condition"] ["Valid"]
                 ["Non-standard"] ["ICD10CM"] (some 1) none])]
      ⟨none, none, none, none, some ["SNOMED"]⟩)[0]? =
      some (ConceptRow.mk (some 1) "Diabetes" "D1" ["Disorder"] ["Condition"] ["Valid"]
        ["Standard"] ["SNOMED"] (some 1) none) :=
  collapse_correctness _ _ 0 _ _ _ rfl rfl (by decide) rfl

/-- Claim C5 counterexample: a top-level group with exactly one child whose
child fails the active filter.  The claimed rule for small groups would emit
the matched subsequence (here empty) as the group's children; `filterData`
instead passes the one-child group through unchanged, keeping its single
non-matching child. -/
theorem trivial_group_counterexample :
    ((projectRow ⟨none, none, none, none, some ["RxNorm"]⟩
        (ConceptRow.mk none "Diabetes" "" ["Disorder"] ["Condition"] ["Valid"]
          ["Standard"] ["SNOMED"] none
          (some [ConceptRow.mk (some 1) "Diabetes" "D1" ["Disorder"] ["Condition"]
                   ["Valid"] ["Standard"] ["SNOMED"] (some 1) none]))).children.map
        List.length) = some 1 ∧
    (applyFiltersToChildren
        [ConceptRow.mk (some 1) "Diabetes" "D1" ["Disorder"] ["Condition"]
           ["Valid"] ["Standard"] ["SNOMED"] (some 1) none]
        ⟨none, none, none, none, some ["RxNorm"]⟩).length = 0 :=
  ⟨rfl, rfl⟩

/-- Claim C5 as amended: top-level rows whose `children` list has zero or one
element are passed through unchanged by the projection, regardless of the
filter state — the predicate is never applied to them, no promotion to a leaf
and no shrinking of the child list takes place. -/
theorem trivial_group_passthrough (f : FilterState) (row : ConceptRow)
    (cs : List ConceptRow) (hch : row.children = some cs) (hlen : cs.length ≤ 1) :
    projectRow f row = row := by
  unfold projectRow
  rw [hch]
  dsimp only
  rw [if_neg (by omega)]

/-- Concrete instantiation of the amended trivial-group rule: the one-child
group of the counterexample is returned unchanged even though its child fails
the active filter. -/
theorem trivial_group_passthrough_witness :
    projectRow ⟨none, none, none, none, some ["RxNorm"]⟩
        (ConceptRow.mk none "Diabetes" "" ["Disorder"] ["Condition"] ["Valid"]
          ["Standard"] ["SNOMED"] none
          (some [ConceptRow.mk (some 1) "Diabetes" "D1" ["Disorder"] ["Condition"]
                   ["Valid"] ["Standard"] ["SNOMED"] (some 1) none])) =
      ConceptRow.mk none "Diabetes" "" ["Disorder"] ["Condition"] ["Valid"]
        ["Standard"] ["SNOMED"] none
        (some [ConceptRow.mk (some 1) "Diabetes" "D1" ["Disorder"] ["Condition"]
                 ["Valid"] ["Standard"] ["SNOMED"] (some 1) none]) :=
  trivial_group_passthrough _ _ _ rfl (by decide)

lemma fsGet_fsSet_self (f : FilterState) (fd : FilterField) (v : Option (List String)) :
    fsGet (fsSet f fd v) fd = v := by
  cases fd <;> rfl

lemma fsGet_fsSet_ne (f : FilterState) (fd fd' : FilterField) (v : Option (List String))
    (h : fd' ≠ fd) : fsGet (fsSet f fd v) fd' = fsGet f fd' := by
  cases fd <;> cases fd' <;> first | rfl | exact absurd rfl h

lemma childPasses_fsSet_imp {f : FilterState} {fd : FilterField}
    {v : Option (List String)} (hinactive : activeSel (fsGet f fd) = false)
    (c : ConceptRow) (h : childPasses (fsSet f fd v) c = true) :
    childPasses f c = true := by
  rw [childPasses_iff_fields] at h ⊢
  intro fd'
  by_cases hfd : fd' = fd
  · subst hfd
    exact fieldBlocks_of_inactive hinactive _
  · have := h fd'
    rwa [fsGet_fsSet_ne _ _ _ _ hfd] at this

/-- Claim C8 — Count monotonicity: starting from a filter state in which a
given field has no active constraint, adding a constraint on that field never
increases any group's matched-child count. -/
theorem count_monotonicity (cs : List ConceptRow) (f : FilterState)
    (fd : FilterField) (sel : List String)
    (hinactive : activeSel (fsGet f fd) = false) :
    (applyFiltersToChildren cs (fsSet f fd (some sel))).length ≤
      (applyFiltersToChildren cs f).length := by
  unfold applyFiltersToChildren
  exact (List.monotone_filter_right cs
    (fun c h => childPasses_fsSet_imp hinactive c h)).length_le

/-- Concrete instantiation of count monotonicity: constraining
`vocabulary_id` to `{SNOMED}` from the default filter state shrinks a
two-child group's matched count. -/
theorem count_monotonicity_witness :
    (applyFiltersToChildren
        [ConceptRow.mk (some 1) "Diabetes" "D1" ["Disorder"] ["Condition"] ["Valid"]
           ["Standard"] ["SNOMED"] (some 1) none,
         ConceptRow.mk (some 2) "Diabetes" "D2" ["Disorder"] ["Condition"] ["Valid"]
           ["Non-standard"] ["ICD10CM"] (some 1) none]
        (fsSet defaultFilterState .vocabulary_id (some ["SNOMED"]))).length ≤
      (applyFiltersToChildren
        [ConceptRow.mk (some 1) "Diabetes" "D1" ["Disorder"] ["Condition"] ["Valid"]
           ["Standard"] ["SNOMED"] (some 1) none,
         ConceptRow.mk (some 2) "Diabetes" "D2" ["Disorder"] ["Condition"] ["Valid"]
           ["Non-standard"] ["ICD10CM"] (some 1) none]
        defaultFilterState).length :=
  count_monotonicity _ defaultFilterState .vocabulary_id ["SNOMED"] rfl

lemma children_setChildren (r : ConceptRow) (cs : Option (List ConceptRow)) :
    (r.setChildren cs).children = cs := by
  cases r
  rfl

/-- Claim C10 — Output-shape invariant: the projection emits exactly one
output row per top-level input row, in the same order (zero-match groups
included); and, for well-formed two-level data, an input group with more than
one child never yields an output group with exactly one child — that slot
holds either the promoted single matching child or a group carrying the
matched subsequence, whose length is zero or at least two. -/
theorem output_shape_invariant (rows : List ConceptRow) (f : FilterState) :
    (project rows f).length = rows.length ∧
    (∀ i : Nat, (project rows f)[i]? = (rows[i]?).map (projectRow f)) ∧
    (∀ (i : Nat) (row : ConceptRow) (cs : List ConceptRow) (out : ConceptRow)
      (cs' : List ConceptRow), rows[i]? = some row → row.children = some cs →
      1 < cs.length → cs.all (fun ch => ch.children.isNone) = true →
      (project rows f)[i]? = some out → out.children = some cs' →
      cs'.length ≠ 1) := by
  refine ⟨List.length_map _ _, fun i => List.getElem?_map _ _ _, ?_⟩
  intro i row cs out cs' hrow hch hlen hleaf hout hcs'
  unfold project at hout
  rw [List.getElem?_map, hrow, Option.map_some', Option.some.injEq] at hout
  subst hout
  unfold projectRow at hcs'
  rw [hch] at hcs'
  dsimp only at hcs'
  rw [if_pos hlen] at hcs'
  by_cases h1 : (applyFiltersToChildren cs f).length = 1
  · rw [if_pos h1] at hcs'
    rcases hac : applyFiltersToChildren cs f with _ | ⟨c, rest⟩
    · rw [hac] at h1
      simp at h1
    · have hc_mem : c ∈ cs := by
        have : c ∈ applyFiltersToChildren cs f := by
          rw [hac]
          exact List.mem_cons_self _ _
        exact List.mem_of_mem_filter this
      have hcnone : c.children = none := by
        have := (List.all_eq_true.1 hleaf) c hc_mem
        simpa [Option.isNone_iff_eq_none] using this
      rw [hac] at hcs'
      simp only [List.headD_cons] at hcs'
      rw [hcnone] at hcs'
      cases hcs'
  · rw [if_neg h1] at hcs'
    rw [children_setChildren, Option.some.injEq] at hcs'
    subst hcs'
    exact h1

/-- Concrete instantiation of the output-shape invariant: a three-child group
with two matching children keeps a two-child group in its slot. -/
theorem output_shape_invariant_witness :
    (2 : Nat) ≠ 1 :=
  (output_shape_invariant
      [ConceptRow.mk none "Diabetes" "" ["Disorder", "Disorder", "Disorder"]
        ["Condition", "Condition", "Condition"] ["Valid", "Valid", "Valid"]
        ["Standard", "Non-standard", "Standard"] ["SNOMED", "SNOMED", "ICD10CM"] none
        (some [ConceptRow.mk (some 1) "Diabetes" "D1" ["Disorder"] ["Condition"]
                 ["Valid"] ["Standard"] ["SNOMED"] (some 1) none,
               ConceptRow.mk (some 2) "Diabetes" "D2" ["Disorder"] ["Condition"]
                 ["Valid"] ["Non-standard"] ["SNOMED"] (some 1) none,
               ConceptRow.mk (some 3) "Diabetes" "D3" ["Disorder"] ["Condition"]
                 ["Valid"] ["Standard"] ["ICD10CM"] (some 1) none])]
      ⟨none, none, none, none, some ["SNOMED"]⟩).2.2 0 _
    [ConceptRow.mk (some 1) "Diabetes" "D1" ["Disorder"] ["Condition"]
       ["Valid"] ["Standard"] ["SNOMED"] (some 1) none,
     ConceptRow.mk (some 2) "Diabetes" "D2" ["Disorder"] ["Condition"]
       ["Valid"] ["Non-standard"] ["SNOMED"] (some 1) none,
     ConceptRow.mk (some 3) "Diabetes" "D3" ["Disorder"] ["Condition"]
       ["Valid"] ["Standard"] ["ICD10CM"] (some 1) none] _
    [ConceptRow.mk (some 1) "Diabetes" "D1" ["Disorder"] ["Condition"]
       ["Valid"] ["Standard"] ["SNOMED"] (some 1) none,
     ConceptRow.mk (some 2) "Diabetes" "D2" ["Disorder"] ["Condition"]
       ["Valid"] ["Non-standard"] ["SNOMED"] (some 1) none]
    rfl rfl (by decide) rfl rfl rfl

lemma dedupFirst_cons {α : Type} [DecidableEq α] (a : α) (rest : List α) :
    dedupFirst (a :: rest) = a :: dedupFirst (rest.filter (fun b => b ≠ a)) := by
  rw [dedupFirst]

lemma mem_dedupFirst {α : Type} [DecidableEq α] (l : List α) (x : α) :
    x ∈ dedupFirst l ↔ x ∈ l := by
  induction l using dedupFirst.induct with
  | case1 => rw [dedupFirst]
  | case2 a rest ih =>
    rw [dedupFirst_cons]
    by_cases hx : x = a
    · subst hx
      simp
    · constructor
      · intro h
        rcases List.mem_cons.1 h with rfl | h2
        · exact List.mem_cons_self _ _
        · exact List.mem_cons_of_mem _ (List.mem_filter.1 (ih.1 h2)).1
      · intro h
        rcases List.mem_cons.1 h with rfl | h2
        · exact absurd rfl hx
        · exact List.mem_cons_of_mem _ (ih.2 (List.mem_filter.2 ⟨h2, by simp [hx]⟩))

lemma dedupFirst_sublist {α : Type} [DecidableEq α] (l : List α) :
    List.Sublist (dedupFirst l) l := by
  induction l using dedupFirst.induct with
  | case1 =>
    rw [dedupFirst]
  | case2 a rest ih =>
    rw [dedupFirst_cons]
    exact (ih.trans (List.filter_sublist _)).cons₂ a

lemma dedupFirst_nodup {α : Type} [DecidableEq α] (l : List α) :
    (dedupFirst l).Nodup := by
  induction l using dedupFirst.induct with
  | case1 =>
    rw [dedupFirst]
    exact List.nodup_nil
  | case2 a rest ih =>
    rw [dedupFirst_cons, List.nodup_cons]
    refine ⟨fun hmem => ?_, ih⟩
    have := (mem_dedupFirst _ _).1 hmem
    have := List.of_mem_filter this
    simp at this

lemma filter_swap {α : Type} (p q : α → Bool) (l : List α) :
    (l.filter q).filter p = (l.filter p).filter q := by
  rw [List.filter_filter, List.filter_filter]
  congr 1
  funext a
  exact Bool.and_comm _ _

lemma dedupFirst_filter {α : Type} [DecidableEq α] (p : α → Bool) (l : List α) :
    dedupFirst (l.filter p) = (dedupFirst l).filter p := by
  induction l using dedupFirst.induct with
  | case1 =>
    simp [dedupFirst]
  | case2 a rest ih =>
    rw [dedupFirst_cons]
    by_cases hp : p a
    · rw [List.filter_cons_of_pos hp, dedupFirst_cons, List.filter_cons_of_pos hp]
      congr 1
      rw [filter_swap, ih]
    · rw [List.filter_cons_of_neg hp, List.filter_cons_of_neg hp, ← ih]
      congr 1
      rw [filter_swap]
      symm
      rw [List.filter_eq_self]
      intro b hb
      have hpb := List.of_mem_filter hb
      simp only [decide_eq_true_eq]
      intro hba
      rw [hba] at hpb
      exact hp hpb

lemma firstIdx_cons {α : Type} [DecidableEq α] (a x : α) (rest : List α) :
    firstIdx a (x :: rest) = if x = a then 0 else firstIdx a rest + 1 := rfl

lemma firstIdx_filter_mono {α : Type} [DecidableEq α] (p : α → Bool) (l : List α)
    {x y : α} (hx : x ∈ l.filter p) (hy : y ∈ l.filter p)
    (h : firstIdx x (l.filter p) < firstIdx y (l.filter p)) :
    firstIdx x l < firstIdx y l := by
  induction l with
  | nil =>
    simp at hx
  | cons a rest ih =>
    by_cases hp : p a
    · rw [List.filter_cons_of_pos hp] at hx hy h
      by_cases hax : a = x
      · subst hax
        have hay : ¬ a = y := by
          rintro rfl
          simp [firstIdx_cons] at h
        simp [firstIdx_cons, hay]
      · by_cases hay : a = y
        · subst hay
          rw [firstIdx_cons, firstIdx_cons, if_neg hax, if_pos rfl] at h
          omega
        · rw [firstIdx_cons, firstIdx_cons, if_neg hax, if_neg hay] at h
          have hx' : x ∈ rest.filter p := by
            rcases List.mem_cons.1 hx with rfl | hx'
            · exact absurd rfl hax
            · exact hx'
          have hy' : y ∈ rest.filter p := by
            rcases List.mem_cons.1 hy with rfl | hy'
            · exact absurd rfl hay
            · exact hy'
          have := ih hx' hy' (by omega)
          rw [firstIdx_cons, firstIdx_cons, if_neg hax, if_neg hay]
          omega
    · rw [List.filter_cons_of_neg hp] at hx hy h
      have hax : ¬ a = x := by
        rintro rfl
        exact hp (List.of_mem_filter hx)
      have hay : ¬ a = y := by
        rintro rfl
        exact hp (List.of_mem_filter hy)
      have := ih hx hy h
      rw [firstIdx_cons, firstIdx_cons, if_neg hax, if_neg hay]
      omega

lemma dedupFirst_pairwise_firstIdx {α : Type} [DecidableEq α] (l : List α) :
    (dedupFirst l).Pairwise (fun a b => firstIdx a l < firstIdx b l) := by
  induction l using dedupFirst.induct with
  | case1 =>
    rw [dedupFirst]
    exact List.Pairwise.nil
  | case2 a rest ih =>
    rw [dedupFirst_cons]
    refine List.Pairwise.cons ?_ ?_
    · intro b hb
      have hbmem := (mem_dedupFirst _ _).1 hb
      have hba : ¬ a = b := by
        have := List.of_mem_filter hbmem
        simp only [decide_eq_true_eq] at this
        exact fun e => this e.symm
      rw [firstIdx_cons, firstIdx_cons, if_pos rfl, if_neg hba]
      omega
    · refine List.Pairwise.imp_of_mem ?_ ih
      intro x y hx hy hr
      have hx' := (mem_dedupFirst _ _).1 hx
      have hy' := (mem_dedupFirst _ _).1 hy
      have hax : ¬ a = x := by
        have := List.of_mem_filter hx'
        simp only [decide_eq_true_eq] at this
        exact fun e => this e.symm
      have hay : ¬ a = y := by
        have := List.of_mem_filter hy'
        simp only [decide_eq_true_eq] at this
        exact fun e => this e.symm
      have := firstIdx_filter_mono _ rest hx' hy' hr
      rw [firstIdx_cons, firstIdx_cons, if_neg hax, if_neg hay]
      omega

lemma mem_truthyFilter (l : List JStr) (v : String) :
    v ∈ truthyFilter l ↔ some v ∈ l ∧ v ≠ "" := by
  unfold truthyFilter
  simp only [List.mem_map, List.mem_filter]
  constructor
  · rintro ⟨w, ⟨hwl, hwt⟩, rfl⟩
    cases w with
    | none => simp [truthyStr] at hwt
    | some s =>
      simp only [truthyStr, decide_eq_true_eq] at hwt
      exact ⟨hwl, by simpa using hwt⟩
  · rintro ⟨hvl, hne⟩
    exact ⟨some v, ⟨hvl, by simp [truthyStr, hne]⟩, rfl⟩

lemma nodup_truthyFilter (l : List JStr) (h : l.Nodup) : (truthyFilter l).Nodup := by
  unfold truthyFilter
  refine List.Nodup.map_on ?_ (h.filter _)
  intro x hx y hy hxy
  have hxt := List.of_mem_filter hx
  have hyt := List.of_mem_filter hy
  cases x with
  | none => simp [truthyStr] at hxt
  | some s =>
    cases y with
    | none => simp [truthyStr] at hyt
    | some t => simpa using hxy

lemma pairwise_truthyFilter_dedup (vals : List JStr) :
    (truthyFilter (dedupFirst vals)).Pairwise
      (fun a b => firstIdx (some a) vals < firstIdx (some b) vals) := by
  unfold truthyFilter
  rw [List.pairwise_map]
  refine List.Pairwise.imp_of_mem ?_ ((dedupFirst_pairwise_firstIdx vals).filter truthyStr)
  intro x y hx hy hr
  have hxt := List.of_mem_filter hx
  have hyt := List.of_mem_filter hy
  cases x with
  | none => simp [truthyStr] at hxt
  | some s =>
    cases y with
    | none => simp [truthyStr] at hyt
    | some t => simpa using hr

lemma truthyFilter_dedup_skip_none (vs : List JStr) :
    truthyFilter (dedupFirst vs) =
      truthyFilter (dedupFirst (vs.filter (fun v => v ≠ none))) := by
  unfold truthyFilter
  rw [dedupFirst_filter, List.filter_filter]
  congr 2
  funext v
  cases v <;> simp [truthyStr]

/-- Claim C4 — Cell renderer contract: a leaf row's cell shows exactly its
field sequence (its single value, for single-valued leaves); a group row
whose filtered child subset has exactly one member shows that member's
scalar first value; otherwise the cell is the tag collection over the
filtered subset — duplicate-free, containing exactly the non-empty first
values of the subset's children, ordered by first occurrence, and empty for
an empty subset. -/
theorem renderCell_contract (f : FilterState) (row : ConceptRow) (fd : FilterField) :
    (row.children = none →
      renderCellValue f row fd = CellValue.rawField (getField row fd) ∧
      displayedStrings (renderCellValue f row fd) = getField row fd) ∧
    (∀ (cs : List ConceptRow) (c : ConceptRow), row.children = some cs →
      applyFiltersToChildren cs f = [c] →
      renderCellValue f row fd = CellValue.scalar (jsHead (getField c fd))) ∧
    (∀ cs : List ConceptRow, row.children = some cs →
      (applyFiltersToChildren cs f).length ≠ 1 →
      renderCellValue f row fd =
        CellValue.tags (renderTagsForField (applyFiltersToChildren cs f) fd) ∧
      (renderTagsForField (applyFiltersToChildren cs f) fd).Nodup ∧
      (∀ v : String, v ∈ renderTagsForField (applyFiltersToChildren cs f) fd ↔
        some v ∈ childFirstVals (applyFiltersToChildren cs f) fd ∧ v ≠ "") ∧
      (renderTagsForField (applyFiltersToChildren cs f) fd).Pairwise
        (fun a b => firstIdx (some a) (childFirstVals (applyFiltersToChildren cs f) fd) <
          firstIdx (some b) (childFirstVals (applyFiltersToChildren cs f) fd)) ∧
      (applyFiltersToChildren cs f = [] →
        renderCellValue f row fd = CellValue.tags [])) := by
  refine ⟨?_, ?_, ?_⟩
  · intro hch
    unfold renderCellValue
    rw [hch]
    exact ⟨rfl, rfl⟩
  · intro cs c hch hone
    unfold renderCellValue
    rw [hch]
    dsimp only
    rw [hone]
    rfl
  · intro cs hch hne
    have hcell : renderCellValue f row fd =
        CellValue.tags (renderTagsForField (applyFiltersToChildren cs f) fd) := by
      unfold renderCellValue
      rw [hch]
      dsimp only
      rw [if_neg hne]
    refine ⟨hcell, ?_, ?_, ?_, ?_⟩
    · exact nodup_truthyFilter _ (dedupFirst_nodup _)
    · intro v
      unfold renderTagsForField
      rw [mem_truthyFilter]
      rw [mem_dedupFirst]
    · exact pairwise_truthyFilter_dedup _
    · intro hnil
      rw [hcell, hnil]
      simp [renderTagsForField, childFirstVals, dedupFirst, truthyFilter]

/-- Concrete instantiation of the renderer contract: a three-child group with
class values `[A, A, B]` and no active filters renders the tag collection for
`concept_class_id` (with its dedup, membership, ordering and emptiness
properties instantiated). -/
theorem renderCell_contract_witness :
    renderCellValue defaultFilterState
        (ConceptRow.mk none "Diabetes" "" ["A", "A", "B"] ["Condition", "Condition", "Condition"]
          ["Valid", "Valid", "Valid"] ["Standard", "Standard", "Standard"]
          ["SNOMED", "SNOMED", "SNOMED"] none
          (some [ConceptRow.mk (some 1) "Diabetes" "D1" ["A"] ["Condition"] ["Valid"]
                   ["Standard"] ["SNOMED"] (some 1) none,
                 ConceptRow.mk (some 2) "Diabetes" "D2" ["A"] ["Condition"] ["Valid"]
                   ["Standard"] ["SNOMED"] (some 1) none,
                 ConceptRow.mk (some 3) "Diabetes" "D3" ["B"] ["Condition"] ["Valid"]
                   ["Standard"] ["SNOMED"] (some 1) none]))
        FilterField.concept_class_id =
      CellValue.tags (renderTagsForField
        (applyFiltersToChildren
          [ConceptRow.mk (some 1) "Diabetes" "D1" ["A"] ["Condition"] ["Valid"]
             ["Standard"] ["SNOMED"] (some 1) none,
           ConceptRow.mk (some 2) "Diabetes" "D2" ["A"] ["Condition"] ["Valid"]
             ["Standard"] ["SNOMED"] (some 1) none,
           ConceptRow.mk (some 3) "Diabetes" "D3" ["B"] ["Condition"] ["Valid"]
             ["Standard"] ["SNOMED"] (some 1) none] defaultFilterState)
        FilterField.concept_class_id) :=
  ((renderCell_contract defaultFilterState
      (ConceptRow.mk none "Diabetes" "" ["A", "A", "B"] ["Condition", "Condition", "Condition"]
        ["Valid", "Valid", "Valid"] ["Standard", "Standard", "Standard"]
        ["SNOMED", "SNOMED", "SNOMED"] none
        (some [ConceptRow.mk (some 1) "Diabetes" "D1" ["A"] ["Condition"] ["Valid"]
                 ["Standard"] ["SNOMED"] (some 1) none,
               ConceptRow.mk (some 2) "Diabetes" "D2" ["A"] ["Condition"] ["Valid"]
                 ["Standard"] ["SNOMED"] (some 1) none,
               ConceptRow.mk (some 3) "Diabetes" "D3" ["B"] ["Condition"] ["Valid"]
                 ["Standard"] ["SNOMED"] (some 1) none]))
      FilterField.concept_class_id).2.2
    [ConceptRow.mk (some 1) "Diabetes" "D1" ["A"] ["Condition"] ["Valid"]
       ["Standard"] ["SNOMED"] (some 1) none,
     ConceptRow.mk (some 2) "Diabetes" "D2" ["A"] ["Condition"] ["Valid"]
       ["Standard"] ["SNOMED"] (some 1) none,
     ConceptRow.mk (some 3) "Diabetes" "D3" ["B"] ["Condition"] ["Valid"]
       ["Standard"] ["SNOMED"] (some 1) none]
    rfl (by decide)).1

/-- Claim C9 — Malformed-input totality: a child whose value sequence for some
filterable field is empty is treated as carrying an empty value; it fails any
active constraint on that field, and it contributes nothing to the rendered
tag collection for that field. -/
theorem malformed_empty_field_safe (f : FilterState) (c : ConceptRow)
    (fd : FilterField) (l1 l2 : List ConceptRow) (hempty : getField c fd = [])
    (hactive : activeSel (fsGet f fd) = true) :
    childPasses f c = false ∧
    renderTagsForField (l1 ++ c :: l2) fd = renderTagsForField (l1 ++ l2) fd := by
  constructor
  · cases h : childPasses f c with
    | false => rfl
    | true =>
      exfalso
      have hblock := (childPasses_iff_fields f c).1 h fd
      rw [hempty] at hblock
      cases hsel : fsGet f fd with
      | none => rw [hsel] at hactive; simp [activeSel] at hactive
      | some l =>
        rw [hsel] at hactive hblock
        simp only [activeSel, jsHead, List.head?_nil] at hactive hblock
        simp [fieldBlocks, jsIncludes, hactive] at hblock
        simp [hblock] at hactive
  · unfold renderTagsForField
    rw [truthyFilter_dedup_skip_none (childFirstVals (l1 ++ c :: l2) fd),
      truthyFilter_dedup_skip_none (childFirstVals (l1 ++ l2) fd)]
    congr 2
    unfold childFirstVals
    rw [List.map_append, List.map_append, List.map_cons, List.filter_append,
      List.filter_append, List.filter_cons]
    rw [hempty]
    simp [jsHead]

/-- Concrete instantiation of the malformed-input theorem: a child with an
empty `concept_class_id` sequence fails an active class constraint and is
omitted from the tag collection. -/
theorem malformed_empty_field_safe_witness :
    childPasses ⟨some ["Disorder"], none, none, none, none⟩
        (ConceptRow.mk (some 9) "Broken" "" [] ["Condition"] ["Valid"]
          ["Standard"] ["SNOMED"] (some 1) none) = false ∧
    renderTagsForField
        ([ConceptRow.mk (some 1) "Diabetes" "D1" ["Disorder"] ["Condition"] ["Valid"]
            ["Standard"] ["SNOMED"] (some 1) none] ++
          (ConceptRow.mk (some 9) "Broken" "" [] ["Condition"] ["Valid"]
            ["Standard"] ["SNOMED"] (some 1) none) ::
          [ConceptRow.mk (some 2) "Diabetes" "D2" ["Clinical Finding"] ["Condition"]
            ["Valid"] ["Standard"] ["ICD10CM"] (some 1) none])
        FilterField.concept_class_id =
      renderTagsForField
        ([ConceptRow.mk (some 1) "Diabetes" "D1" ["Disorder"] ["Condition"] ["Valid"]
            ["Standard"] ["SNOMED"] (some 1) none] ++
          [ConceptRow.mk (some 2) "Diabetes" "D2" ["Clinical Finding"] ["Condition"]
            ["Valid"] ["Standard"] ["ICD10CM"] (some 1) none])
        FilterField.concept_class_id :=
  malformed_empty_field_safe ⟨some ["Disorder"], none, none, none, none⟩ _
    FilterField.concept_class_id _ _ rfl rfl

/-- Claim C6 counterexample: a three-child group of which exactly two children
match the filter `vocabulary_id = {SNOMED}`.  The rendered id-column label for
that slot reads "2 concepts" (the filtered subset size), not "3 concepts"
(the original, unfiltered child count claimed by the specification). -/
theorem member_count_counterexample :
    ((project
        [ConceptRow.mk none "Diabetes" "" ["Disorder", "Disorder", "Disorder"]
          ["Condition", "Condition", "Condition"] ["Valid", "Valid", "Valid"]
          ["Standard", "Non-standard", "Standard"] ["SNOMED", "SNOMED", "ICD10CM"] none
          (some [ConceptRow.mk (some 1) "Diabetes" "D1" ["Disorder"] ["Condition"]
                   ["Valid"] ["Standard"] ["SNOMED"] (some 1) none,
                 ConceptRow.mk (some 2) "Diabetes" "D2" ["Disorder"] ["Condition"]
                   ["Valid"] ["Non-standard"] ["SNOMED"] (some 1) none,
                 ConceptRow.mk (some 3) "Diabetes" "D3" ["Disorder"] ["Condition"]
                   ["Valid"] ["Standard"] ["ICD10CM"] (some 1) none])]
        ⟨none, none, none, none, some ["SNOMED"]⟩).map renderIdCell = ["2 concepts"]) ∧
    ((ConceptRow.mk none "Diabetes" "" ["Disorder", "Disorder", "Disorder"]
        ["Condition", "Condition", "Condition"] ["Valid", "Valid", "Valid"]
        ["Standard", "Non-standard", "Standard"] ["SNOMED", "SNOMED", "ICD10CM"]
        (none : Option Rat)
        (some [ConceptRow.mk (some 1) "Diabetes" "D1" ["Disorder"] ["Condition"]
                 ["Valid"] ["Standard"] ["SNOMED"] (some 1) none,
               ConceptRow.mk (some 2) "Diabetes" "D2" ["Disorder"] ["Condition"]
                 ["Valid"] ["Non-standard"] ["SNOMED"] (some 1) none,
               ConceptRow.mk (some 3) "Diabetes" "D3" ["Disorder"] ["Condition"]
                 ["Valid"] ["Standard"] ["ICD10CM"] (some 1) none])).children.map
        List.length = some 3) ∧
    "2 concepts" ≠ "3 concepts" :=
  ⟨rfl, rfl, by decide⟩

lemma concept_id_setChildren (r : ConceptRow) (cs : Option (List ConceptRow)) :
    (r.setChildren cs).concept_id = r.concept_id := by
  cases r
  rfl

/-- Claim C6 as amended: for a group row (no `concept_id`) with more than one
child whose filtered subset does not collapse, the id-column label in the
projected output shows the row's current — filtered — child count, i.e. the
matched-subset size (when no filter is active this coincides with the
original child count). -/
theorem member_count_label (rows : List ConceptRow) (f : FilterState) (i : Nat)
    (row : ConceptRow) (cs : List ConceptRow) (out : ConceptRow)
    (hrow : rows[i]? = some row) (hch : row.children = some cs)
    (hlen : 1 < cs.length) (hid : row.concept_id = none)
    (hne : (applyFiltersToChildren cs f).length ≠ 1)
    (hout : (project rows f)[i]? = some out) :
    renderIdCell out = toString (applyFiltersToChildren cs f).length ++ " concepts" := by
  unfold project at hout
  rw [List.getElem?_map, hrow, Option.map_some', Option.some.injEq] at hout
  subst hout
  unfold projectRow
  rw [hch]
  dsimp only
  rw [if_pos hlen, if_neg hne]
  unfold renderIdCell
  rw [concept_id_setChildren, hid, children_setChildren]
  rfl

/-- Concrete instantiation of the amended member-count contract at the
counterexample's three-child group: the label is the filtered count. -/
theorem member_count_label_witness :
    renderIdCell
        ((ConceptRow.mk none "Diabetes" "" ["Disorder", "Disorder", "Disorder"]
          ["Condition", "Condition", "Condition"] ["Valid", "Valid", "Valid"]
          ["Standard", "Non-standard", "Standard"] ["SNOMED", "SNOMED", "ICD10CM"] none
          (some [ConceptRow.mk (some 1) "Diabetes" "D1" ["Disorder"] ["Condition"]
                   ["Valid"] ["Standard"] ["SNOMED"] (some 1) none,
                 ConceptRow.mk (some 2) "Diabetes" "D2" ["Disorder"] ["Condition"]
                   ["Valid"] ["Non-standard"] ["SNOMED"] (some 1) none,
                 ConceptRow.mk (some 3) "Diabetes" "D3" ["Disorder"] ["Condition"]
                   ["Valid"] ["Standard"] ["ICD10CM"] (some 1) none])).setChildren
          (some [ConceptRow.mk (some 1) "Diabetes" "D1" ["Disorder"] ["Condition"]
                   ["Valid"] ["Standard"] ["SNOMED"] (some 1) none,
                 ConceptRow.mk (some 2) "Diabetes" "D2" ["Disorder"] ["Condition"]
                   ["Valid"] ["Non-standard"] ["SNOMED"] (some 1) none])) =
      toString (applyFiltersToChildren
        [ConceptRow.mk (some 1) "Diabetes" "D1" ["Disorder"] ["Condition"]
           ["Valid"] ["Standard"] ["SNOMED"] (some 1) none,
         ConceptRow.mk (some 2) "Diabetes" "D2" ["Disorder"] ["Condition"]
           ["Valid"] ["Non-standard"] ["SNOMED"] (some 1) none,
         ConceptRow.mk (some 3) "Diabetes" "D3" ["Disorder"] ["Condition"]
           ["Valid"] ["Standard"] ["ICD10CM"] (some 1) none]
        ⟨none, none, none, none, some ["SNOMED"]⟩).length ++ " concepts" :=
  member_count_label
    [ConceptRow.mk none "Diabetes" "" ["Disorder", "Disorder", "Disorder"]
      ["Condition", "Condition", "Condition"] ["Valid", "Valid", "Valid"]
      ["Standard", "Non-standard", "Standard"] ["SNOMED", "SNOMED", "ICD10CM"] none
      (some [ConceptRow.mk (some 1) "Diabetes" "D1" ["Disorder"] ["Condition"]
               ["Valid"] ["Standard"] ["SNOMED"] (some 1) none,
             ConceptRow.mk (some 2) "Diabetes" "D2" ["Disorder"] ["Condition"]
               ["Valid"] ["Non-standard"] ["SNOMED"] (some 1) none,
             ConceptRow.mk (some 3) "Diabetes" "D3" ["Disorder"] ["Condition"]
               ["Valid"] ["Standard"] ["ICD10CM"] (some 1) none])]
    ⟨none, none, none, none, some ["SNOMED"]⟩ 0 _ _ _ rfl rfl (by decide) rfl
    (by decide) rfl

lemma any_key_bump (acc : List (String × Nat)) (x k : String) :
    (bump acc x).any (fun e => e.1 = k) =
      (acc.any (fun e => e.1 = k) || decide (x = k)) := by
  unfold bump
  by_cases hmem : acc.any (fun e => e.1 = x) = true
  · rw [if_pos hmem, List.any_map]
    have hfn : ((fun e : String × Nat => decide (e.1 = k)) ∘
          (fun e : String × Nat => if e.1 = x then (e.1, e.2 + 1) else e)) =
        (fun e : String × Nat => decide (e.1 = k)) := by
      funext e
      by_cases hex : e.1 = x <;> simp [Function.comp, hex]
    rw [hfn]
    by_cases hxk : x = k
    · subst hxk
      simp [hmem]
    · simp [hxk]
  · rw [if_neg hmem, List.any_append]
    simp

lemma foldl_bump_eq (l : List String) (acc : List (String × Nat)) :
    l.foldl bump acc =
      acc.map (fun e => (e.1, e.2 + l.count e.1)) ++
        (dedupFirst (l.filter (fun k => !acc.any (fun e => e.1 = k)))).map
          (fun k => (k, l.count k)) := by
  induction l generalizing acc with
  | nil =>
    simp [dedupFirst]
  | cons x rest ih =>
    rw [List.foldl_cons, ih (bump acc x)]
    have hkeys : (fun k => !(bump acc x).any (fun e => e.1 = k)) =
        (fun k => (!acc.any (fun e => e.1 = k)) && !(decide (x = k))) := by
      funext k
      rw [any_key_bump, Bool.not_or]
    rw [hkeys]
    by_cases hmem : acc.any (fun e => e.1 = x) = true
    · have hA : (bump acc x).map (fun e => (e.1, e.2 + rest.count e.1)) =
          acc.map (fun e => (e.1, e.2 + (x :: rest).count e.1)) := by
        unfold bump
        rw [if_pos hmem, List.map_map]
        apply List.map_congr_left
        intro e _
        dsimp only [Function.comp]
        by_cases hex : e.1 = x
        · rw [if_pos hex]
          dsimp only
          rw [hex, List.count_cons_self]
          exact congrArg (Prod.mk x) (by omega)
        · rw [if_neg hex]
          rw [List.count_cons_of_ne hex]
      have hflt : rest.filter
            (fun k => (!acc.any (fun e => e.1 = k)) && !(decide (x = k))) =
          (x :: rest).filter (fun k => !acc.any (fun e => e.1 = k)) := by
        rw [List.filter_cons, if_neg (by simp [hmem])]
        apply List.filter_congr
        intro k _
        by_cases hk : acc.any (fun e => e.1 = k) = true
        · simp [hk]
        · have hxk : ¬ (x = k) := by
            rintro rfl
            exact hk hmem
          simp [hk, hxk]
      have hC : (dedupFirst
            ((x :: rest).filter (fun k => !acc.any (fun e => e.1 = k)))).map
            (fun k => (k, rest.count k)) =
          (dedupFirst
            ((x :: rest).filter (fun k => !acc.any (fun e => e.1 = k)))).map
            (fun k => (k, (x :: rest).count k)) := by
        apply List.map_congr_left
        intro k hkmem
        have hk := List.of_mem_filter ((mem_dedupFirst _ _).1 hkmem)
        simp only [Bool.not_eq_eq_eq_not, Bool.not_true] at hk
        have hkx : k ≠ x := by
          rintro rfl
          simp [hk] at hmem
        rw [List.count_cons_of_ne hkx]
      rw [hA, hflt, hC]
    · have hmem' : acc.any (fun e => e.1 = x) = false := by
        cases h2 : acc.any (fun e => e.1 = x) with
        | false => rfl
        | true => exact absurd h2 hmem
      have hco : (x :: rest).filter (fun k => !acc.any (fun e => e.1 = k)) =
          x :: rest.filter (fun k => !acc.any (fun e => e.1 = k)) := by
        rw [List.filter_cons, if_pos (by simp [hmem'])]
      rw [hco, dedupFirst_cons, List.map_cons]
      unfold bump
      rw [if_neg hmem, List.map_append, List.append_assoc]
      congr 1
      · apply List.map_congr_left
        intro e he
        have hex : ¬ (e.1 = x) := by
          have := List.any_eq_false.1 hmem' e he
          simpa using this
        rw [List.count_cons_of_ne hex]
      · have hhead : ([((x : String), (1 : Nat))]).map
            (fun e => (e.1, e.2 + rest.count e.1)) = [(x, 1 + rest.count x)] := by
          simp
        rw [hhead, List.singleton_append]
        congr 1
        · refine congrArg (Prod.mk x) ?_
          rw [List.count_cons_self]
          omega
        · have htail : (rest.filter (fun k => !acc.any (fun e => e.1 = k))).filter
              (fun b => b ≠ x) =
              rest.filter
                (fun k => (!acc.any (fun e => e.1 = k)) && !(decide (x = k))) := by
            rw [List.filter_filter]
            apply List.filter_congr
            intro k _
            by_cases hxk : x = k
            · subst hxk
              simp
            · have hkx : k ≠ x := fun h2 => hxk h2.symm
              simp [hxk, hkx]
          rw [htail]
          apply List.map_congr_left
          intro k hkmem
          have hk := List.of_mem_filter ((mem_dedupFirst _ _).1 hkmem)
          have hkx : k ≠ x := by
            rintro rfl
            simp at hk
          rw [List.count_cons_of_ne hkx]

lemma filterMap_id_map_some (l : List JStr) (h : ∀ v ∈ l, v.isSome = true) :
    (l.filterMap id).map some = l := by
  induction l with
  | nil => rfl
  | cons v rest ih =>
    cases v with
    | none =>
      have := h none (List.mem_cons_self _ _)
      simp at this
    | some s =>
      simp only [List.filterMap_cons, id, List.map_cons]
      rw [ih (fun v hv => h v (List.mem_cons_of_mem _ hv))]

lemma countsOf_of_all_some (V : List JStr) (hwf : ∀ v ∈ V, v.isSome = true) :
    countsOf (sortJS V) =
      (dedupFirst ((V.filterMap id).mergeSort (fun a b => a ≤ b))).map
        (fun k => (k, ((V.filterMap id).mergeSort (fun a b => a ≤ b)).count k)) := by
  have hnone : V.count none = 0 := by
    apply List.count_eq_zero_of_not_mem
    intro hmem
    have := hwf none hmem
    simp at this
  unfold countsOf sortJS
  rw [hnone]
  simp only [List.replicate_zero, List.append_nil, List.map_map]
  rw [show (keyOf ∘ (some : String → JStr)) = id from funext fun s => rfl, List.map_id]
  rw [foldl_bump_eq]
  simp only [List.map_nil, List.nil_append]
  congr 1
  rw [show (fun k : String => !List.any ([] : List (String × Nat)) (fun e => e.1 = k)) =
      (fun _ : String => true) from funext fun k => by simp]
  rw [List.filter_true]

/-- Claim C7 as amended (for well-formed rows, every visited first value
present): for each filterable field, the index built from the unfiltered row
list visits every leaf row's single value and every group row's children's
values, keeps empty string values (an empty value forms its own entry rather
than being ignored), counts occurrences per distinct value, and emits one
entry per distinct value in sorted value order, each carrying its count. -/
theorem filter_index_contract (fd : FilterField) (rows : List ConceptRow)
    (hwf : ∀ v ∈ visitedFirsts fd rows, v.isSome = true) :
    getFilterSelector fd rows = specFilterIndex fd rows ∧
    ((getFilterSelector fd rows).map FilterOption.value).Nodup ∧
    ((getFilterSelector fd rows).map FilterOption.value).Pairwise (· ≤ ·) := by
  have hcounts := countsOf_of_all_some (visitedFirsts fd rows) hwf
  have hvals : (getFilterSelector fd rows).map FilterOption.value =
      dedupFirst (((visitedFirsts fd rows).filterMap id).mergeSort
        (fun a b => a ≤ b)) := by
    unfold getFilterSelector createCountForFilter
    rw [hcounts, List.map_map, List.map_map]
    rw [show ((FilterOption.value ∘ fun e : String × Nat =>
        (⟨e.1 ++ " (" ++ toString e.2 ++ ")", e.1⟩ : FilterOption)) ∘
        (fun k : String =>
          (k, (((visitedFirsts fd rows).filterMap id).mergeSort
            (fun a b => a ≤ b)).count k))) = id from funext fun k => rfl]
    rw [List.map_id]
  refine ⟨?_, ?_, ?_⟩
  · unfold getFilterSelector createCountForFilter specFilterIndex
    rw [hcounts, List.map_map]
    apply List.map_congr_left
    intro k _
    dsimp only [Function.comp]
    rw [List.Perm.count_eq (List.mergeSort_perm _ _)]
  · rw [hvals]
    exact dedupFirst_nodup _
  · rw [hvals]
    exact List.Pairwise.sublist (dedupFirst_sublist _) (List.sorted_mergeSort' _)

/-- Claim C7 counterexample: a leaf row whose `invalid_reason` value is the
empty string.  The claimed index would ignore the empty/falsy value and emit
no entry; `getFilterSelector` instead emits an entry whose value is `""`. -/
theorem filter_index_counterexample :
    (getFilterSelector FilterField.invalid_reason
        [ConceptRow.mk (some 1) "Aspirin" "A1" ["Ingredient"] ["Drug"] [""]
          ["Standard"] ["RxNorm"] (some 1) none]).map FilterOption.value = [""] := by
  simp [getFilterSelector, visitedFirsts, sortJS, createCountForFilter, countsOf,
    bump, keyOf, jsHead, getField, ConceptRow.children, ConceptRow.invalid_reason]

/-- Concrete instantiation of the amended filter-index contract on a two-row
dataset containing a group, a leaf, a duplicated value and an empty value. -/
theorem filter_index_contract_witness :
    getFilterSelector FilterField.invalid_reason
        [ConceptRow.mk (some 1) "Aspirin" "A1" ["Ingredient"] ["Drug"] [""]
          ["Standard"] ["RxNorm"] (some 1) none,
         ConceptRow.mk none "Diabetes" "" ["Disorder", "Disorder"]
          ["Condition", "Condition"] ["Valid", "Valid"] ["Standard", "Non-standard"]
          ["SNOMED", "ICD10CM"] none
          (some [ConceptRow.mk (some 2) "Diabetes" "D1" ["Disorder"] ["Condition"]
                   ["Valid"] ["Standard"] ["SNOMED"] (some 1) none,
                 ConceptRow.mk (some 3) "Diabetes" "D2" ["Disorder"] ["Condition"]
                   ["Valid"] ["Non-standard"] ["ICD10CM"] (some 1) none])] =
      specFilterIndex FilterField.invalid_reason
        [ConceptRow.mk (some 1) "Aspirin" "A1" ["Ingredient"] ["Drug"] [""]
          ["Standard"] ["RxNorm"] (some 1) none,
         ConceptRow.mk none "Diabetes" "" ["Disorder", "Disorder"]
          ["Condition", "Condition"] ["Valid", "Valid"] ["Standard", "Non-standard"]
          ["SNOMED", "ICD10CM"] none
          (some [ConceptRow.mk (some 2) "Diabetes" "D1" ["Disorder"] ["Condition"]
                   ["Valid"] ["Standard"] ["SNOMED"] (some 1) none,
                 ConceptRow.mk (some 3) "Diabetes" "D2" ["Disorder"] ["Condition"]
                   ["Valid"] ["Non-standard"] ["ICD10CM"] (some 1) none])] ∧
    ((getFilterSelector FilterField.invalid_reason
        [ConceptRow.mk (some 1) "Aspirin" "A1" ["Ingredient"] ["Drug"] [""]
          ["Standard"] ["RxNorm"] (some 1) none,
         ConceptRow.mk none "Diabetes" "" ["Disorder", "Disorder"]
          ["Condition", "Condition"] ["Valid", "Valid"] ["Standard", "Non-standard"]
          ["SNOMED", "ICD10CM"] none
          (some [ConceptRow.mk (some 2) "Diabetes" "D1" ["Disorder"] ["Condition"]
                   ["Valid"] ["Standard"] ["SNOMED"] (some 1) none,
                 ConceptRow.mk (some 3) "Diabetes" "D2" ["Disorder"] ["Condition"]
                   ["Valid"] ["Non-standard"] ["ICD10CM"] (some 1) none])]).map
        FilterOption.value).Nodup ∧
    ((getFilterSelector FilterField.invalid_reason
        [ConceptRow.mk (some 1) "Aspirin" "A1" ["Ingredient"] ["Drug"] [""]
          ["Standard"] ["RxNorm"] (some 1) none,
         ConceptRow.mk none "Diabetes" "" ["Disorder", "Disorder"]
          ["Condition", "Condition"] ["Valid", "Valid"] ["Standard", "Non-standard"]
          ["SNOMED", "ICD10CM"] none
          (some [ConceptRow.mk (some 2) "Diabetes" "D1" ["Disorder"] ["Condition"]
                   ["Valid"] ["Standard"] ["SNOMED"] (some 1) none,
                 ConceptRow.mk (some 3) "Diabetes" "D2" ["Disorder"] ["Condition"]
                   ["Valid"] ["Non-standard"] ["ICD10CM"] (some 1) none])]).map
        FilterOption.value).Pairwise (· ≤ ·) :=
  filter_index_contract FilterField.invalid_reason _ (by decide)
